import Mathlib

/-!
Shallow embedding of `src/diagmagic.py` (ipython-diags).

The module registers six diagram cell magics (actdiag, blockdiag, nwdiag,
seqdiag, rackdiag, packetdiag) and three mode magics (setdiagsize,
setdiagsvg, setdiagpng).  Process-wide mutable state consists of the
strings `_draw_mode` and `_publish_mode`, the pair `_size`, the cached
tri-state `_inkscape_available`, and `sys.argv`.  External executables are
black boxes; for each render call the environment records whether the
dialect tool spawns, whether inkscape spawns, and which files each writes
into the temporary directory.
-/

namespace Diagmagic

/-! ### Python string primitives used by the source -/

/-- ASCII whitespace stripped by the `int` builtin of Python
(simplification: only ASCII whitespace is modelled). -/
def pyIsSpace (c : Char) : Bool :=
  c = ' ' || c = '\t' || c = '\n' || c = '\r' || c = Char.ofNat 11 || c = Char.ofNat 12

/-- Strip whitespace on both ends, as `str.strip()` does. -/
def pyStrip (s : List Char) : List Char :=
  ((s.dropWhile pyIsSpace).reverse.dropWhile pyIsSpace).reverse

/-- Accumulate the value of a nonempty all-digit run; `none` on any
non-digit character. -/
def digitsValAux : List Char → Nat → Option Nat
  | [], acc => some acc
  | c :: rest, acc =>
      if c.isDigit then digitsValAux rest (acc * 10 + (c.toNat - 48)) else none

/-- Value of a nonempty string of decimal digits, `none` otherwise. -/
def digitsVal : List Char → Option Nat
  | [] => none
  | l => digitsValAux l 0

/-- The `int(str)` builtin of Python: strip whitespace, optional single
sign, then a nonempty digit run (simplification: digit-group underscores
and non-ASCII digits are not modelled; the claims never use them). -/
def pyInt (s : List Char) : Option Int :=
  match pyStrip s with
  | [] => none
  | c :: rest =>
      if c = '+' then (digitsVal rest).map (fun n => (n : Int))
      else if c = '-' then (digitsVal rest).map (fun n => -(n : Int))
      else (digitsVal (c :: rest)).map (fun n => (n : Int))

/-- Index of the first occurrence of a character, `none` if absent. -/
def findFrom : List Char → Char → Option Nat
  | [], _ => none
  | c :: rest, t => if c = t then some 0 else (findFrom rest t).map (· + 1)

/-- `str.find`: first index of the character, or `-1` when absent. -/
def pyFind (s : String) (t : Char) : Int :=
  match findFrom s.data t with
  | some i => (i : Int)
  | none => -1

/-- Python slice `s[:j]` (negative indices count from the end). -/
def pySliceUpto (l : List Char) (j : Int) : List Char :=
  let j2 := if j < 0 then j + l.length else j
  l.take j2.toNat

/-- Python slice `s[i:]` (negative indices count from the end). -/
def pySliceFrom (l : List Char) (i : Int) : List Char :=
  let i2 := if i < 0 then i + l.length else i
  l.drop i2.toNat

/-! ### setdiagsize: `_size = (int(line[:line.find(EOL)]), int(line[line.find(EOL)+1:]))`
with the comma as separator. -/

/-- The pair computed by `setdiagsize`: split at the first comma found by
`line.find` and run `int` on both slices; `none` models the `ValueError`
raised by `int`, which propagates uncaught. -/
def parseSize (line : String) : Option (Int × Int) :=
  let k := pyFind line ','
  match pyInt (pySliceUpto line.data k), pyInt (pySliceFrom line.data (k + 1)) with
  | some a, some b => some (a, b)
  | _, _ => none

/-! ### Process-wide state and external environment -/

/-- `str.lower()` restricted to ASCII, as used on "SVG"/"PNG". -/
def pyLower (s : String) : String :=
  ⟨s.data.map Char.toLower⟩

/-- The module-level mutable state of `diagmagic.py`: `_draw_mode`,
`_publish_mode`, `_size`, `_inkscape_available` and `sys.argv`. -/
structure PState where
  draw_mode : String
  publish_mode : String
  size : Int × Int
  ink_cache : Option Bool
  argv : List String
deriving DecidableEq, Repr

/-- Module-level initial values (`_draw_mode = _publish_mode = "SVG"`,
`_size = (1000, 500)`, `_inkscape_available = None`). -/
def init : PState :=
  { draw_mode := "SVG", publish_mode := "SVG", size := (1000, 500),
    ink_cache := none, argv := [] }

/-- The hard-coded inkscape path (both branches of the `os.uname` test
assign the same string). -/
def inkscapePath : String :=
  "/Applications/Inkscape.app/Contents/Resources/bin/inkscape"

/-- Outcome of one attempt to spawn a process with `subprocess.call`. -/
inductive SpawnOutcome where
  | launched (exitCode : Int)
  | notFound
  | osError
deriving DecidableEq, Repr

/-- `BlockdiagMagics.run_command`: `subprocess.call` inside
`try/except OSError`.  Returns `True` when the call returned (the exit
code is discarded), `False` when spawning raised `OSError`
(`notFound` is `FileNotFoundError`, a subclass of `OSError`); it is a
total function, so it never raises.  The `except CalledProcessError`
branch is dead code: `subprocess.call` never raises that exception. -/
def run_command (o : SpawnOutcome) : Bool :=
  match o with
  | .launched _ => true
  | .notFound => false
  | .osError => false

/-- External world for one render call.  `inkLaunches` says whether the
inkscape executable spawns (used by the availability probe and by
`svg2png`); `toolLaunch` is `none` when spawning the dialect tool raises
`OSError`, `some c` when it runs with exit code `c`; `toolWrites` and
`convWrites` are the files (path, bytes) the dialect tool resp. inkscape
leave in the temporary directory when they run. -/
structure Env where
  inkLaunches : Bool
  toolLaunch : Option Int
  toolWrites : List (String × String)
  convWrites : List (String × String)
deriving DecidableEq, Repr

/-- Observable external actions of a render call, in order: a
`run_command` invocation (probe or svg2png), the direct
`subprocess.call(sys.argv)` on the dialect tool, and the artifact read. -/
inductive Ev where
  | runCmd (args : List String)
  | toolCall (args : List String)
  | readArtifact (path : String)
deriving DecidableEq, Repr

/-- Exceptions escaping a render call: `OSError` from the direct
`subprocess.call`, or `FileNotFoundError` from opening the artifact. -/
inductive Err where
  | osError
  | fileNotFound (path : String)
deriving DecidableEq, Repr

/-- `BlockdiagMagics.inkscape_available`: probe once with
`run_command([_inkscape, "--export-png"])` and cache the boolean in the
module global; later calls return the cached value without spawning.
Returns (result, updated state, run_command trace). -/
def inkscape_available (env : Env) (st : PState) : Bool × PState × List Ev :=
  match st.ink_cache with
  | some b => (b, st, [])
  | none =>
      let b := run_command (if env.inkLaunches then .launched 0 else .notFound)
      (b, { st with ink_cache := some b }, [Ev.runCmd [inkscapePath, "--export-png"]])

/-- `BlockdiagMagics.svg2png`: `run_command` on inkscape; the boolean
result is discarded.  Returns the trace and the files inkscape wrote
(none when it failed to spawn). -/
def svg2png (env : Env) (filename : String) : List Ev × List (String × String) :=
  ([Ev.runCmd [inkscapePath, filename ++ ".svg", "--export-png=" ++ filename ++ ".png"]],
   if env.inkLaunches then env.convWrites else [])

/-- Lines 117-121 of `diag`: when `_publish_mode == "PNG"`, probe
inkscape and, if available, assign `_draw_mode = "SVG"` in place. -/
def modeUpdate (env : Env) (st : PState) : PState × List Ev :=
  if st.publish_mode = "PNG" then
    let r := inkscape_available env st
    (if r.1 then { r.2.1 with draw_mode := "SVG" } else r.2.1, r.2.2)
  else (st, [])

/-- The `finally` loop `for file in os.listdir(tmpdir): os.unlink(...)`:
remove from the directory listing every name in `names`. -/
def unlinkAll (names : List String) (files : List (String × String)) :
    List (String × String) :=
  names.foldl (fun acc name => acc.filter (fun p => p.1 ≠ name)) files

/-- The whole `finally` block: unlink every listed file, then
`os.rmdir(tmpdir)`.  Returns the remaining (files, directories). -/
def finallyCleanup (tmpdir : String) (files : List (String × String))
    (dirs : List String) : List (String × String) × List String :=
  (unlinkAll (files.map Prod.fst) files, dirs.erase tmpdir)

/-- The files present in the temporary directory at artifact-read time:
the staged input file, what the dialect tool wrote, and, when the
`_draw_mode == "SVG" and _publish_mode == "PNG"` branch ran `svg2png`,
what inkscape wrote. -/
def readFs (env : Env) (draw publish code dn : String) : List (String × String) :=
  let files1 := (dn, code) :: env.toolWrites
  if draw = "SVG" ∧ publish = "PNG" then files1 ++ (svg2png env dn).2 else files1

instance exceptDecEq {ε α : Type} [DecidableEq ε] [DecidableEq α] :
    DecidableEq (Except ε α)
  | .ok a, .ok b =>
      if h : a = b then isTrue (by rw [h])
      else isFalse (by intro hh; cases hh; exact h rfl)
  | .ok _, .error _ => isFalse (by intro h; cases h)
  | .error _, .ok _ => isFalse (by intro h; cases h)
  | .error a, .error b =>
      if h : a = b then isTrue (by rw [h])
      else isFalse (by intro hh; cases hh; exact h rfl)

/-- Result of one render call: external trace, final module state (also
on the exception path, since the globals persist), the files and
directories remaining from the per-call temporary directory after the
`finally` cleanup, and either the published (MIME type, bytes) pair or
the escaping exception. -/
structure DiagResult where
  trace : List Ev
  finalSt : PState
  files : List (String × String)
  dirs : List String
  outcome : Except Err (String × String)
deriving DecidableEq, Repr

/-- `BlockdiagMagics.diag`, lines 113-173.  `tmpdir` and `diag_name` stand
for the fresh names produced by `mkdtemp`/`mkstemp`; the cell magics pass
`command` as the executable name.  The external tools write only inside
`tmpdir` (modelled by `Env`). -/
def diag (env : Env) (tmpdir diag_name command : String) (cell : String)
    (st : PState) : DiagResult :=
  let code := cell ++ "\n"
  let st1 := (modeUpdate env st).1
  let trace0 := (modeUpdate env st).2
  let files0 : List (String × String) := [(diag_name, code)]
  let format := pyLower st1.draw_mode
  let draw_name := diag_name ++ "." ++ format
  let saved_argv := st1.argv
  let argv2 := [command, "-T", format, "--size",
                toString st1.size.1 ++ "x" ++ toString st1.size.2,
                "-o", draw_name, diag_name]
  let st2 := { st1 with argv := argv2 }
  match env.toolLaunch with
  | none =>
      -- subprocess.call raises OSError: sys.argv is not restored, the
      -- finally block runs, the exception propagates.
      { trace := trace0 ++ [Ev.toolCall argv2],
        finalSt := st2,
        files := (finallyCleanup tmpdir files0 [tmpdir]).1,
        dirs := (finallyCleanup tmpdir files0 [tmpdir]).2,
        outcome := .error .osError }
  | some _ =>
      let st3 := { st2 with argv := saved_argv }
      let convTr := if st1.draw_mode = "SVG" ∧ st.publish_mode = "PNG"
                    then (svg2png env diag_name).1 else []
      let files2 := readFs env st1.draw_mode st.publish_mode code diag_name
      let file_name := diag_name ++ "." ++ pyLower st.publish_mode
      let traceAll := trace0 ++ [Ev.toolCall argv2] ++ convTr
                        ++ [Ev.readArtifact file_name]
      match files2.lookup file_name with
      | some data =>
          { trace := traceAll,
            finalSt := st3,
            files := (finallyCleanup tmpdir files2 [tmpdir]).1,
            dirs := (finallyCleanup tmpdir files2 [tmpdir]).2,
            outcome := .ok (if st.publish_mode = "SVG"
                            then ("image/svg+xml", data)
                            else ("image/png", data)) }
      | none =>
          { trace := traceAll,
            finalSt := st3,
            files := (finallyCleanup tmpdir files2 [tmpdir]).1,
            dirs := (finallyCleanup tmpdir files2 [tmpdir]).2,
            outcome := .error (.fileNotFound file_name) }

/-! ### The nine magics and the extension lifecycle -/

/-- `%%actdiag`. -/
def actdiag (env : Env) (tmpdir diag_name cell : String) (st : PState) : DiagResult :=
  diag env tmpdir diag_name "actdiag" cell st

/-- `%%blockdiag`. -/
def blockdiag (env : Env) (tmpdir diag_name cell : String) (st : PState) : DiagResult :=
  diag env tmpdir diag_name "blockdiag" cell st

/-- `%%nwdiag`. -/
def nwdiag (env : Env) (tmpdir diag_name cell : String) (st : PState) : DiagResult :=
  diag env tmpdir diag_name "nwdiag" cell st

/-- `%%seqdiag`. -/
def seqdiag (env : Env) (tmpdir diag_name cell : String) (st : PState) : DiagResult :=
  diag env tmpdir diag_name "seqdiag" cell st

/-- `%%rackdiag`. -/
def rackdiag (env : Env) (tmpdir diag_name cell : String) (st : PState) : DiagResult :=
  diag env tmpdir diag_name "rackdiag" cell st

/-- `%%packetdiag`. -/
def packetdiag (env : Env) (tmpdir diag_name cell : String) (st : PState) : DiagResult :=
  diag env tmpdir diag_name "packetdiag" cell st

/-- `%setdiagsize`: assign the parsed pair to `_size`, or raise the
`ValueError` of `int` (in which case the global keeps its old value). -/
def setdiagsize (line : String) (st : PState) : Except Unit PState :=
  match parseSize line with
  | some p => .ok { st with size := p }
  | none => .error ()

/-- `%setdiagsvg`: `_draw_mode = _publish_mode = "SVG"`. -/
def setdiagsvg (st : PState) : PState :=
  { st with draw_mode := "SVG", publish_mode := "SVG" }

/-- `%setdiagpng`: `_draw_mode = _publish_mode = "PNG"`. -/
def setdiagpng (st : PState) : PState :=
  { st with draw_mode := "PNG", publish_mode := "PNG" }

/-- One user-visible operation on the module state. -/
inductive Op where
  | setsize (line : String)
  | setsvg
  | setpng
  | render (env : Env) (tmpdir diag_name command cell : String)

/-- Effect of one operation on the module globals (a raising
`setdiagsize` leaves them unchanged; a render call leaves its final
state whether it returned or raised). -/
def step (st : PState) : Op → PState
  | .setsize l =>
      match setdiagsize l st with
      | .ok s => s
      | .error _ => st
  | .setsvg => setdiagsvg st
  | .setpng => setdiagpng st
  | .render env td dn cmd cell => (diag env td dn cmd cell st).finalSt

/-- States of the module globals reachable from the import-time values
by magics. -/
def Reachable (st : PState) : Prop :=
  ∃ ops : List Op, ops.foldl step init = st

/-- The names registered by `register_magics(BlockdiagMagics)`. -/
def magicNames : List String :=
  ["actdiag", "blockdiag", "nwdiag", "seqdiag", "rackdiag", "packetdiag",
   "setdiagsize", "setdiagsvg", "setdiagpng"]

/-- Host registry plus the `_loaded` module flag. -/
structure ExtState where
  loaded : Bool
  registry : List String
deriving DecidableEq, Repr

/-- Registry state before the extension is ever loaded. -/
def initExt : ExtState :=
  { loaded := false, registry := [] }

/-- `load_ipython_extension`: register the magics once, guarded by the
module-level `_loaded` flag. -/
def load_ipython_extension (s : ExtState) : ExtState :=
  if s.loaded then s
  else { loaded := true, registry := s.registry ++ magicNames }

/-! ### Helper lemmas -/

lemma unlinkAll_eq_nil (names : List String) :
    ∀ files : List (String × String),
      (∀ p ∈ files, p.1 ∈ names) → unlinkAll names files = [] := by
  induction names with
  | nil =>
      intro files h
      cases files with
      | nil => rfl
      | cons p t => exact absurd (h p (by simp)) (by simp)
  | cons n ns ih =>
      intro files h
      have hstep : unlinkAll (n :: ns) files
          = unlinkAll ns (files.filter (fun p => p.1 ≠ n)) := rfl
      rw [hstep]
      apply ih
      intro p hp
      have hmem := List.mem_filter.mp hp
      have h1 := h p hmem.1
      have h2 : p.1 ≠ n := by simpa using hmem.2
      rcases List.mem_cons.mp h1 with h3 | h3
      · exact absurd h3 h2
      · exact h3

lemma finallyCleanup_files (td : String) (files : List (String × String)) :
    (finallyCleanup td files [td]).1 = [] :=
  unlinkAll_eq_nil _ files (fun _ hp => List.mem_map_of_mem _ hp)

lemma finallyCleanup_dirs (td : String) (files : List (String × String)) :
    (finallyCleanup td files [td]).2 = [] := by
  simp [finallyCleanup]

/-- The boolean `inkscape_available` returns: the cached value, or the
probe result on first use. -/
def inkAvail (env : Env) (st : PState) : Bool :=
  (inkscape_available env st).1

lemma inkAvail_eq (env : Env) (st : PState) :
    inkAvail env st = st.ink_cache.getD env.inkLaunches := by
  unfold inkAvail inkscape_available
  cases st.ink_cache <;> cases hEnv : env.inkLaunches <;> simp [hEnv, run_command]

lemma modeUpdate_publish (env : Env) (st : PState) :
    (modeUpdate env st).1.publish_mode = st.publish_mode := by
  unfold modeUpdate inkscape_available
  by_cases hp : st.publish_mode = "PNG"
  · cases hc : st.ink_cache with
    | none => cases hEnv : env.inkLaunches <;> simp [hp, hc, hEnv, run_command]
    | some b => cases b <;> simp [hp, hc]
  · simp [hp]

lemma modeUpdate_size (env : Env) (st : PState) :
    (modeUpdate env st).1.size = st.size := by
  unfold modeUpdate inkscape_available
  by_cases hp : st.publish_mode = "PNG"
  · cases hc : st.ink_cache with
    | none => cases hEnv : env.inkLaunches <;> simp [hp, hc, hEnv, run_command]
    | some b => cases b <;> simp [hp, hc]
  · simp [hp]

lemma modeUpdate_argv (env : Env) (st : PState) :
    (modeUpdate env st).1.argv = st.argv := by
  unfold modeUpdate inkscape_available
  by_cases hp : st.publish_mode = "PNG"
  · cases hc : st.ink_cache with
    | none => cases hEnv : env.inkLaunches <;> simp [hp, hc, hEnv, run_command]
    | some b => cases b <;> simp [hp, hc]
  · simp [hp]

lemma modeUpdate_draw (env : Env) (st : PState) :
    (modeUpdate env st).1.draw_mode =
      if st.publish_mode = "PNG" ∧ inkAvail env st then "SVG" else st.draw_mode := by
  rw [inkAvail_eq]
  unfold modeUpdate inkscape_available
  by_cases hp : st.publish_mode = "PNG"
  · cases hc : st.ink_cache with
    | none => cases hEnv : env.inkLaunches <;> simp [hp, hc, hEnv, run_command]
    | some b => cases b <;> simp [hp, hc]
  · simp [hp]

lemma modeUpdate_cache (env : Env) (st : PState) :
    (modeUpdate env st).1.ink_cache =
      if st.publish_mode = "PNG" then some (inkAvail env st) else st.ink_cache := by
  rw [inkAvail_eq]
  unfold modeUpdate inkscape_available
  by_cases hp : st.publish_mode = "PNG"
  · cases hc : st.ink_cache with
    | none => cases hEnv : env.inkLaunches <;> simp [hp, hc, hEnv, run_command]
    | some b => cases b <;> simp [hp, hc]
  · simp [hp]

lemma diag_finalSt_fields (env : Env) (td dn cmd cell : String) (st : PState) :
    (diag env td dn cmd cell st).finalSt.draw_mode = (modeUpdate env st).1.draw_mode ∧
    (diag env td dn cmd cell st).finalSt.publish_mode = (modeUpdate env st).1.publish_mode ∧
    (diag env td dn cmd cell st).finalSt.ink_cache = (modeUpdate env st).1.ink_cache ∧
    (diag env td dn cmd cell st).finalSt.size = (modeUpdate env st).1.size := by
  unfold diag
  cases h : env.toolLaunch with
  | none => simp
  | some c =>
      simp only [h]
      cases hl : (readFs env (modeUpdate env st).1.draw_mode st.publish_mode
          (cell ++ "\n") dn).lookup (dn ++ "." ++ pyLower st.publish_mode) <;>
        simp [hl]

/-! ### The mode invariant over reachable states -/

/-- Both format globals always hold one of the two valid strings. -/
def ModesOK (st : PState) : Prop :=
  (st.draw_mode = "SVG" ∨ st.draw_mode = "PNG") ∧
  (st.publish_mode = "SVG" ∨ st.publish_mode = "PNG")

/-- Unless inkscape has been probed available, the two format globals
agree (only the forced-SVG branch ever makes them differ, and it also
caches `some true`). -/
def CacheSync (st : PState) : Prop :=
  st.ink_cache ≠ some true → st.draw_mode = st.publish_mode

def Inv (st : PState) : Prop := ModesOK st ∧ CacheSync st

lemma inv_init : Inv init := by
  constructor <;> simp [init, ModesOK, CacheSync]

/-- `Inv` depends only on the two modes and the cache. -/
lemma inv_of_fields (s t : PState) (h1 : s.draw_mode = t.draw_mode)
    (h2 : s.publish_mode = t.publish_mode) (h3 : s.ink_cache = t.ink_cache)
    (h : Inv t) : Inv s := by
  unfold Inv ModesOK CacheSync at *
  rw [h1, h2, h3]
  exact h

lemma modeUpdate_inv (env : Env) (st : PState) (h : Inv st) :
    Inv (modeUpdate env st).1 := by
  obtain ⟨⟨hd, hp⟩, hc⟩ := h
  refine ⟨⟨?_, ?_⟩, ?_⟩
  · rw [modeUpdate_draw]
    by_cases hcond : st.publish_mode = "PNG" ∧ inkAvail env st
    · simp [hcond]
    · simp [hcond]
      exact hd
  · rw [modeUpdate_publish]
    exact hp
  · intro hne
    rw [modeUpdate_draw, modeUpdate_publish]
    rw [modeUpdate_cache] at hne
    by_cases hpng : st.publish_mode = "PNG"
    · have havailF : inkAvail env st = false := by
        by_contra hT
        have : inkAvail env st = true := by
          cases hA : inkAvail env st
          · exact absurd hA hT
          · rfl
        exact hne (by simp [hpng, this])
      have hcacheOld : st.ink_cache ≠ some true := by
        intro hcc
        rw [inkAvail_eq, hcc] at havailF
        simp at havailF
      simp [havailF]
      exact hc hcacheOld
    · simp [hpng] at hne
      simp [hpng]
      exact hc hne

lemma step_setsize_fields (st : PState) (l : String) :
    (step st (Op.setsize l)).draw_mode = st.draw_mode ∧
    (step st (Op.setsize l)).publish_mode = st.publish_mode ∧
    (step st (Op.setsize l)).ink_cache = st.ink_cache := by
  unfold step setdiagsize
  cases hp : parseSize l with
  | none => simp [hp]
  | some v => simp [hp]

lemma step_inv (st : PState) (op : Op) (h : Inv st) : Inv (step st op) := by
  cases op with
  | setsize l =>
      have hf := step_setsize_fields st l
      exact inv_of_fields _ st hf.1 hf.2.1 hf.2.2 h
  | setsvg =>
      exact ⟨⟨Or.inl rfl, Or.inl rfl⟩, fun _ => rfl⟩
  | setpng =>
      exact ⟨⟨Or.inr rfl, Or.inr rfl⟩, fun _ => rfl⟩
  | render env td dn cmd cell =>
      have hf := diag_finalSt_fields env td dn cmd cell st
      have hm := modeUpdate_inv env st h
      exact inv_of_fields _ _ hf.1 hf.2.1 hf.2.2.1 hm

lemma foldl_inv (ops : List Op) :
    ∀ st : PState, Inv st → Inv (ops.foldl step st) := by
  induction ops with
  | nil => intro st h; exact h
  | cons op rest ih => intro st h; exact ih _ (step_inv st op h)

lemma reachable_inv (st : PState) (h : Reachable st) : Inv st := by
  obtain ⟨ops, hops⟩ := h
  exact hops ▸ foldl_inv ops init inv_init

/-! ### Parsing lemmas for setdiagsize -/

lemma digitsValAux_none {c : Char} (hd : c.isDigit = false) :
    ∀ l : List Char, c ∈ l → ∀ acc : Nat, digitsValAux l acc = none := by
  intro l
  induction l with
  | nil => intro h; cases h
  | cons a t ih =>
      intro h acc
      by_cases ha : a.isDigit = true
      · rcases List.mem_cons.mp h with h1 | h1
        · subst h1; rw [ha] at hd; cases hd
        · simp only [digitsValAux, ha, if_true]
          exact ih h1 _
      · simp only [digitsValAux, ha, if_false]
        simp [ha]

lemma digitsVal_none {c : Char} (hd : c.isDigit = false) (l : List Char)
    (hc : c ∈ l) : digitsVal l = none := by
  cases l with
  | nil => cases hc
  | cons a t => exact digitsValAux_none hd _ hc 0

lemma mem_dropWhile {p : Char → Bool} {c : Char} (hp : p c = false) :
    ∀ l : List Char, c ∈ l → c ∈ l.dropWhile p := by
  intro l
  induction l with
  | nil => intro h; cases h
  | cons a t ih =>
      intro h
      by_cases ha : p a = true
      · rw [List.dropWhile_cons_of_pos ha]
        rcases List.mem_cons.mp h with h1 | h1
        · subst h1; rw [hp] at ha; cases ha
        · exact ih h1
      · rw [List.dropWhile_cons_of_neg (by simpa using ha)]
        exact h

lemma mem_pyStrip {c : Char} (hc : pyIsSpace c = false) {l : List Char}
    (h : c ∈ l) : c ∈ pyStrip l := by
  unfold pyStrip
  rw [List.mem_reverse]
  apply mem_dropWhile hc
  rw [List.mem_reverse]
  exact mem_dropWhile hc _ h

lemma pyInt_comma_none (l : List Char) (hc : (',' : Char) ∈ l) :
    pyInt l = none := by
  have hmem : (',' : Char) ∈ pyStrip l := mem_pyStrip (by decide) hc
  unfold pyInt
  cases hs : pyStrip l with
  | nil => rfl
  | cons a t =>
      rw [hs] at hmem
      rcases List.mem_cons.mp hmem with h1 | h1
      · have ha1 : ¬(a = '+') := by rw [← h1]; decide
        have ha2 : ¬(a = '-') := by rw [← h1]; decide
        simp only [ha1, ha2, if_false]
        rw [digitsVal_none (by decide) _ hmem]
        rfl
      · by_cases ha1 : a = '+'
        · simp only [ha1, if_true]
          rw [digitsVal_none (by decide) t h1]
          rfl
        · by_cases ha2 : a = '-'
          · simp only [ha1, ha2, if_false, if_true]
            rw [digitsVal_none (by decide) t h1]
            rfl
          · simp only [ha1, ha2, if_false]
            rw [digitsVal_none (by decide) (a :: t) (List.mem_cons_of_mem a h1)]
            rfl

lemma pyInt_some_no_comma {l : List Char} {a : Int} (h : pyInt l = some a) :
    (',' : Char) ∉ l := by
  intro hc
  rw [pyInt_comma_none l hc] at h
  cases h

lemma findFrom_append (w1 w2 : List Char) (h : (',' : Char) ∉ w1) :
    findFrom (w1 ++ ',' :: w2) ',' = some w1.length := by
  induction w1 with
  | nil => simp [findFrom]
  | cons a t ih =>
      have ha : ¬(a = ',') := fun hh => h (by rw [hh]; exact List.mem_cons_self _ _)
      have ht : (',' : Char) ∉ t := fun hh => h (List.mem_cons_of_mem _ hh)
      simp [findFrom, ha, ih ht]

lemma pySliceUpto_append (w1 w2 : List Char) :
    pySliceUpto (w1 ++ ',' :: w2) (w1.length : Int) = w1 := by
  unfold pySliceUpto
  have h0 : ¬((w1.length : Int) < 0) := by omega
  have h1 : ((w1.length : Int)).toNat = w1.length := by omega
  simp only [h0, if_false, h1]
  exact List.take_left w1 (',' :: w2)

lemma pySliceFrom_append (w1 w2 : List Char) :
    pySliceFrom (w1 ++ ',' :: w2) ((w1.length : Int) + 1) = w2 := by
  unfold pySliceFrom
  have h0 : ¬((w1.length : Int) + 1 < 0) := by omega
  have h1 : ((w1.length : Int) + 1).toNat = w1.length + 1 := by omega
  simp only [h0, if_false, h1]
  have h2 : w1 ++ ',' :: w2 = (w1 ++ [',']) ++ w2 := by simp
  have h3 : w1.length + 1 = (w1 ++ [',']).length := by simp
  rw [h2, h3]
  exact List.drop_left _ _

lemma parseSize_pair (w1 w2 : List Char) (a b : Int)
    (h1 : pyInt w1 = some a) (h2 : pyInt w2 = some b) :
    parseSize ⟨w1 ++ ',' :: w2⟩ = some (a, b) := by
  have hnc : (',' : Char) ∉ w1 := pyInt_some_no_comma h1
  have hdat : (⟨w1 ++ ',' :: w2⟩ : String).data = w1 ++ ',' :: w2 := rfl
  unfold parseSize pyFind
  rw [hdat, findFrom_append w1 w2 hnc]
  dsimp only
  rw [pySliceUpto_append, pySliceFrom_append, h1, h2]

/-! ### Claim theorems -/

/-- Claim C6: `run_command` returns true whenever the process launched and
ran, regardless of its exit code; it returns false when the executable
could not be found or launching failed for OS-level reasons; being a
total function into `Bool`, it raises nothing past its boundary in
either case. -/
theorem c6_run_command_contract :
    (∀ c : Int, run_command (SpawnOutcome.launched c) = true) ∧
    run_command SpawnOutcome.notFound = false ∧
    run_command SpawnOutcome.osError = false :=
  ⟨fun _ => rfl, rfl, rfl⟩

/-- Claim C8: the first activation registers the nine magics and sets the
`_loaded` flag; any further activation is a no-op, so calling the hook
twice registers the commands exactly once. -/
theorem c8_load_extension_once :
    (load_ipython_extension initExt).registry = magicNames ∧
    (load_ipython_extension initExt).loaded = true ∧
    (∀ s : ExtState,
      load_ipython_extension (load_ipython_extension s) = load_ipython_extension s) := by
  refine ⟨rfl, rfl, fun s => ?_⟩
  by_cases h : s.loaded = true <;> simp [load_ipython_extension, h]

/-- Claim C4: whether the render call returns normally or raises, the
`finally` block deletes every file of the per-call temporary directory
and removes the directory itself, so nothing of it remains when the call
ends. -/
theorem c4_cleanup_always (env : Env) (td dn cmd cell : String) (st : PState) :
    (diag env td dn cmd cell st).files = [] ∧ (diag env td dn cmd cell st).dirs = [] := by
  unfold diag
  dsimp only
  split
  · simp [finallyCleanup_files, finallyCleanup_dirs]
  · split <;> simp [finallyCleanup_files, finallyCleanup_dirs]

/-- Claim C7: the two format globals start as "SVG"/"SVG", and after any
sequence of magics both still hold one of the two valid strings "SVG" or
"PNG". -/
theorem c7_modes_invariant (st : PState) :
    init.draw_mode = "SVG" ∧ init.publish_mode = "SVG" ∧
    (Reachable st →
      (st.draw_mode = "SVG" ∨ st.draw_mode = "PNG") ∧
      (st.publish_mode = "SVG" ∨ st.publish_mode = "PNG")) :=
  ⟨rfl, rfl, fun h => (reachable_inv st h).1⟩

/-- Claim C2, counterexample: the comma-free line "640" does not raise a
parsing error; `line.find` returns -1, so the code parses
`int(line[:-1])` and `int(line[0:])` and sets Canvas Size to (64, 640). -/
theorem c2_counterexample :
    setdiagsize "640" init = Except.ok { init with size := (64, 640) } ∧
    setdiagsize "640" init ≠ Except.error () := by
  exact ⟨by decide, by decide⟩

/-- Claim C2 amended: a line of the form "int,int" (split at the first
comma) sets Canvas Size to the parsed pair, and "10," raises the
`ValueError` of `int`, which propagates and leaves Canvas Size
unchanged; but a comma-free line fails only when `int` rejects one of
the two slices `line[:-1]` and `line[0:]` it then receives — a
comma-free digit line such as "640" succeeds (see the
counterexample), so not every malformed line raises. -/
theorem c2_setdiagsize (w1 w2 : List Char) (a b : Int) (st : PState)
    (h1 : pyInt w1 = some a) (h2 : pyInt w2 = some b) :
    setdiagsize ⟨w1 ++ ',' :: w2⟩ st = Except.ok { st with size := (a, b) } ∧
    setdiagsize "10," st = Except.error () ∧
    step st (Op.setsize "10,") = st := by
  refine ⟨?_, ?_, ?_⟩
  · unfold setdiagsize
    rw [parseSize_pair w1 w2 a b h1 h2]
  · unfold setdiagsize
    have hp : parseSize "10," = none := by decide
    rw [hp]
  · have hp : parseSize "10," = none := by decide
    simp [step, setdiagsize, hp]

theorem c2_setdiagsize_witness :
    setdiagsize "640,480" init = Except.ok { init with size := (640, 480) } :=
  (c2_setdiagsize "640".data "480".data 640 480 init (by decide) (by decide)).1

theorem c7_modes_invariant_witness :
    ((setdiagpng init).draw_mode = "SVG" ∨ (setdiagpng init).draw_mode = "PNG") ∧
    ((setdiagpng init).publish_mode = "SVG" ∨ (setdiagpng init).publish_mode = "PNG") :=
  (c7_modes_invariant (setdiagpng init)).2.2 ⟨[Op.setpng], rfl⟩

lemma modeUpdate_trace_cases (env : Env) (st : PState) :
    (modeUpdate env st).2 = [] ∨
    (modeUpdate env st).2 = [Ev.runCmd [inkscapePath, "--export-png"]] := by
  unfold modeUpdate inkscape_available
  by_cases hp : st.publish_mode = "PNG"
  · cases hc : st.ink_cache with
    | none => right; simp [hp, hc]
    | some b => left; simp [hp, hc]
  · left; simp [hp]

/-- Claim C1, counterexample: the dialect tool is spawned by a direct
`subprocess.call`, not by `run_command`.  With a missing executable the
call raises `OSError`, which propagates uncaught: the outcome is not a
file-not-found at artifact-read time, and the trace shows that no
artifact read is ever attempted. -/
theorem c1_counterexample :
    (diag ⟨true, none, [], []⟩ "t" "d" "blockdiag" "x" init).outcome =
      Except.error Err.osError ∧
    (diag ⟨true, none, [], []⟩ "t" "d" "blockdiag" "x" init).trace =
      [Ev.toolCall ["blockdiag", "-T", "svg", "--size", "1000x500", "-o", "d.svg", "d"]] :=
  ⟨by decide, by decide⟩

/-- Claim C1 amended: only the two Converter invocations (availability
probe and svg2png) go through the Process Runner, whose launch failures
become a boolean false that the pipeline ignores (so a Converter failure
surfaces at artifact-read time).  The dialect tool itself is invoked by
a direct `subprocess.call`: when its executable is missing or the OS
rejects the spawn, the `OSError` propagates uncaught from the render
call — after the temporary directory is cleaned up — and the output file
is never read. -/
theorem c1_launch_failure (env : Env) (td dn cmd cell : String) (st : PState)
    (hl : env.toolLaunch = none) :
    (diag env td dn cmd cell st).outcome = Except.error Err.osError ∧
    (∀ p : String, Ev.readArtifact p ∉ (diag env td dn cmd cell st).trace) ∧
    (diag env td dn cmd cell st).files = [] ∧
    (diag env td dn cmd cell st).dirs = [] := by
  unfold diag
  dsimp only
  rw [hl]
  dsimp only
  refine ⟨rfl, ?_, finallyCleanup_files _ _, finallyCleanup_dirs _ _⟩
  intro p hp
  rcases List.mem_append.mp hp with h | h
  · rcases modeUpdate_trace_cases env st with h2 | h2 <;> rw [h2] at h
    · cases h
    · simp at h
  · simp at h

theorem c1_launch_failure_witness :
    (diag ⟨false, none, [], []⟩ "t" "d" "nwdiag" "x" init).outcome =
      Except.error Err.osError ∧
    Ev.readArtifact "d.svg" ∉ (diag ⟨false, none, [], []⟩ "t" "d" "nwdiag" "x" init).trace ∧
    (diag ⟨false, none, [], []⟩ "t" "d" "nwdiag" "x" init).files = [] := by
  have h := c1_launch_failure ⟨false, none, [], []⟩ "t" "d" "nwdiag" "x" init rfl
  exact ⟨h.1, h.2.1 "d.svg", h.2.2.1⟩

/-- Claim C9: a render call with publish format "PNG" and an available
inkscape assigns "SVG" to the module-global `_draw_mode` in place: the
draw format is still "SVG" in the state the call leaves behind (whether
it returned or raised), and subsequent operations that do not set modes
(for example a `setdiagsize`) still see "SVG". -/
theorem c9_draw_mode_persists (env : Env) (td dn cmd cell : String) (st : PState)
    (hp : st.publish_mode = "PNG") (ha : inkAvail env st = true) :
    (diag env td dn cmd cell st).finalSt.draw_mode = "SVG" ∧
    ∀ l : String,
      (step (diag env td dn cmd cell st).finalSt (Op.setsize l)).draw_mode = "SVG" := by
  have h1 := (diag_finalSt_fields env td dn cmd cell st).1
  have h2 : (modeUpdate env st).1.draw_mode = "SVG" := by
    rw [modeUpdate_draw]
    simp [hp, ha]
  refine ⟨h1.trans h2, fun l => ?_⟩
  rw [(step_setsize_fields _ l).1, h1, h2]

theorem c9_draw_mode_persists_witness :
    (diag ⟨true, some 0, [], []⟩ "t" "d" "blockdiag" "x" (setdiagpng init)).finalSt.draw_mode
      = "SVG" :=
  (c9_draw_mode_persists ⟨true, some 0, [], []⟩ "t" "d" "blockdiag" "x"
    (setdiagpng init) rfl (by decide)).1

/-- Claim C10: during a render call `sys.argv` is replaced by the tool
argument vector; it is restored to its prior value exactly when the
direct `subprocess.call` returns normally, and when that call raises
`OSError` the exception propagates with `sys.argv` still holding the
tool argument vector. -/
theorem c10_sys_argv (env : Env) (td dn cmd cell : String) (st : PState) :
    (∀ c : Int, env.toolLaunch = some c →
        (diag env td dn cmd cell st).finalSt.argv = st.argv) ∧
    (env.toolLaunch = none →
        (diag env td dn cmd cell st).finalSt.argv =
          [cmd, "-T", pyLower (modeUpdate env st).1.draw_mode, "--size",
            toString st.size.1 ++ "x" ++ toString st.size.2, "-o",
            dn ++ "." ++ pyLower (modeUpdate env st).1.draw_mode, dn] ∧
        (diag env td dn cmd cell st).outcome = Except.error Err.osError) := by
  cases hE : env.toolLaunch with
  | none =>
      constructor
      · intro c hc
        cases hc
      · intro _
        unfold diag
        dsimp only
        rw [hE]
        dsimp only
        rw [modeUpdate_size]
        exact ⟨rfl, rfl⟩
  | some c0 =>
      constructor
      · intro c _
        unfold diag
        dsimp only
        rw [hE]
        dsimp only
        split
        · exact modeUpdate_argv env st
        · exact modeUpdate_argv env st
      · intro h
        cases h

theorem c10_sys_argv_witness :
    (diag ⟨true, none, [], []⟩ "t" "d" "seqdiag" "x" init).finalSt.argv =
      ["seqdiag", "-T", "svg", "--size", "1000x500", "-o", "d.svg", "d"] ∧
    (diag ⟨true, none, [], []⟩ "t" "d" "seqdiag" "x" init).outcome =
      Except.error Err.osError := by
  have h := (c10_sys_argv ⟨true, none, [], []⟩ "t" "d" "seqdiag" "x" init).2 rfl
  exact ⟨h.1.trans (by decide), h.2⟩

lemma string_append_assoc (s t u : String) : s ++ t ++ u = s ++ (t ++ u) := by
  cases s with
  | mk a =>
      cases t with
      | mk b =>
          cases u with
          | mk c =>
              show String.mk (a ++ b ++ c) = String.mk (a ++ (b ++ c))
              rw [List.append_assoc]

lemma append_dot_svg (s : String) : s ++ "." ++ "svg" = s ++ ".svg" := by
  rw [string_append_assoc]
  rfl

lemma append_dot_png (s : String) : s ++ "." ++ "png" = s ++ ".png" := by
  rw [string_append_assoc]
  rfl

lemma pyLower_SVG : pyLower "SVG" = "svg" := by decide

lemma pyLower_PNG : pyLower "PNG" = "png" := by decide

lemma diag_trace_some (env : Env) (td dn cmd cell : String) (st : PState)
    (c : Int) (hl : env.toolLaunch = some c) :
    (diag env td dn cmd cell st).trace =
      (modeUpdate env st).2
      ++ [Ev.toolCall [cmd, "-T", pyLower (modeUpdate env st).1.draw_mode, "--size",
            toString (modeUpdate env st).1.size.1 ++ "x" ++ toString (modeUpdate env st).1.size.2,
            "-o", dn ++ "." ++ pyLower (modeUpdate env st).1.draw_mode, dn]]
      ++ (if (modeUpdate env st).1.draw_mode = "SVG" ∧ st.publish_mode = "PNG"
          then (svg2png env dn).1 else [])
      ++ [Ev.readArtifact (dn ++ "." ++ pyLower st.publish_mode)] := by
  unfold diag
  dsimp only
  rw [hl]
  dsimp only
  split <;> rfl

lemma modeUpdate_trace_eq (env : Env) (st : PState) (hp : st.publish_mode = "PNG") :
    (modeUpdate env st).2 =
      if st.ink_cache = none then [Ev.runCmd [inkscapePath, "--export-png"]] else [] := by
  unfold modeUpdate inkscape_available
  cases hc : st.ink_cache with
  | none => simp [hp, hc]
  | some b => simp [hp, hc]

/-- Claim C3: with publish format "PNG", a render whose dialect tool
spawns either sees an available Converter — then the tool is invoked
with draw format svg, then inkscape is invoked, and only then is the
.png artifact read — or an unavailable Converter — then the tool is
invoked directly with draw format png and the .png artifact is read
with no Converter invocation.  (The optional probe event appears when
the availability cache is still empty.) -/
theorem c3_png_converter_pipeline (st : PState) (hre : Reachable st) (env : Env)
    (c : Int) (hl : env.toolLaunch = some c) (hp : st.publish_mode = "PNG")
    (td dn cmd cell : String) (a : Bool) (ha : inkAvail env st = a) :
    (diag env td dn cmd cell st).trace =
      (if st.ink_cache = none then [Ev.runCmd [inkscapePath, "--export-png"]] else []) ++
      (if a then
        [Ev.toolCall [cmd, "-T", "svg", "--size",
            toString st.size.1 ++ "x" ++ toString st.size.2, "-o", dn ++ ".svg", dn],
         Ev.runCmd [inkscapePath, dn ++ ".svg", "--export-png=" ++ dn ++ ".png"],
         Ev.readArtifact (dn ++ ".png")]
       else
        [Ev.toolCall [cmd, "-T", "png", "--size",
            toString st.size.1 ++ "x" ++ toString st.size.2, "-o", dn ++ ".png", dn],
         Ev.readArtifact (dn ++ ".png")]) := by
  rw [diag_trace_some env td dn cmd cell st c hl, modeUpdate_trace_eq env st hp,
      modeUpdate_size]
  cases a with
  | true =>
      have hdraw : (modeUpdate env st).1.draw_mode = "SVG" := by
        rw [modeUpdate_draw]
        simp [hp, ha]
      rw [hdraw, hp, pyLower_SVG, pyLower_PNG, append_dot_svg, append_dot_png]
      simp [svg2png]
  | false =>
      have hcache : st.ink_cache ≠ some true := by
        intro hcc
        rw [inkAvail_eq, hcc] at ha
        simp at ha
      have hdp : st.draw_mode = st.publish_mode := (reachable_inv st hre).2 hcache
      have hdraw : (modeUpdate env st).1.draw_mode = "PNG" := by
        rw [modeUpdate_draw]
        simp [ha, hdp, hp]
      rw [hdraw, hp, pyLower_PNG, append_dot_png]
      simp

/-- The external invocation used in the C3 witness. -/
theorem c3_png_converter_pipeline_witness :
    (diag ⟨true, some 0, [], []⟩ "t" "d" "actdiag" "x" (setdiagpng init)).trace =
      [Ev.runCmd [inkscapePath, "--export-png"],
       Ev.toolCall ["actdiag", "-T", "svg", "--size", "1000x500", "-o", "d.svg", "d"],
       Ev.runCmd [inkscapePath, "d.svg", "--export-png=d.png"],
       Ev.readArtifact "d.png"] := by
  have h := c3_png_converter_pipeline (setdiagpng init) ⟨[Op.setpng], rfl⟩
    ⟨true, some 0, [], []⟩ 0 rfl rfl "t" "d" "actdiag" "x" true (by decide)
  exact h.trans (by decide)

lemma diag_outcome_of_lookup (env : Env) (td dn cmd cell : String) (st : PState)
    (c : Int) (hl : env.toolLaunch = some c) (d : String)
    (hd : List.lookup (dn ++ "." ++ pyLower st.publish_mode)
            (readFs env (modeUpdate env st).1.draw_mode st.publish_mode (cell ++ "\n") dn)
          = some d) :
    (diag env td dn cmd cell st).outcome =
      Except.ok ((if st.publish_mode = "SVG" then "image/svg+xml" else "image/png"), d) := by
  unfold diag
  dsimp only
  rw [hl]
  dsimp only
  rw [hd]
  by_cases hsvg : st.publish_mode = "SVG" <;> simp [hsvg]

/-- Claim C5: for each of the six dialect commands, when the external
steps leave the expected artifact file in the temporary directory with
bytes `d`, the published payload is exactly `d`, tagged image/svg+xml
when the publish mode is "SVG" and image/png otherwise. -/
theorem c5_payload_published (env : Env) (td dn cell : String) (st : PState)
    (c : Int) (hl : env.toolLaunch = some c) (d : String)
    (hd : List.lookup (dn ++ "." ++ pyLower st.publish_mode)
            (readFs env (modeUpdate env st).1.draw_mode st.publish_mode (cell ++ "\n") dn)
          = some d) :
    (actdiag env td dn cell st).outcome =
      Except.ok ((if st.publish_mode = "SVG" then "image/svg+xml" else "image/png"), d) ∧
    (blockdiag env td dn cell st).outcome =
      Except.ok ((if st.publish_mode = "SVG" then "image/svg+xml" else "image/png"), d) ∧
    (nwdiag env td dn cell st).outcome =
      Except.ok ((if st.publish_mode = "SVG" then "image/svg+xml" else "image/png"), d) ∧
    (seqdiag env td dn cell st).outcome =
      Except.ok ((if st.publish_mode = "SVG" then "image/svg+xml" else "image/png"), d) ∧
    (rackdiag env td dn cell st).outcome =
      Except.ok ((if st.publish_mode = "SVG" then "image/svg+xml" else "image/png"), d) ∧
    (packetdiag env td dn cell st).outcome =
      Except.ok ((if st.publish_mode = "SVG" then "image/svg+xml" else "image/png"), d) :=
  ⟨diag_outcome_of_lookup env td dn "actdiag" cell st c hl d hd,
   diag_outcome_of_lookup env td dn "blockdiag" cell st c hl d hd,
   diag_outcome_of_lookup env td dn "nwdiag" cell st c hl d hd,
   diag_outcome_of_lookup env td dn "seqdiag" cell st c hl d hd,
   diag_outcome_of_lookup env td dn "rackdiag" cell st c hl d hd,
   diag_outcome_of_lookup env td dn "packetdiag" cell st c hl d hd⟩

theorem c5_payload_published_witness :
    (blockdiag ⟨true, some 0, [("d.svg", "FIXTURE")], []⟩ "t" "d" "x" init).outcome =
      Except.ok ("image/svg+xml", "FIXTURE") := by
  have h := (c5_payload_published ⟨true, some 0, [("d.svg", "FIXTURE")], []⟩
    "t" "d" "x" init 0 rfl "FIXTURE" (by decide)).2.1
  exact h.trans (by decide)

end Diagmagic
